import Mathlib

/-!
Verification development for the DLQ monitor repository.

This file shallowly embeds the parts of the source that the stated
properties are about:

* `src/dlq_monitor/services/database_service.py` — the persistence layer
  (`create_investigation`, `update_investigation`, `get_active_investigations`,
  `add_timeline_event`);
* `src/dlq_monitor/services/investigation_service.py` — the investigation
  lifecycle service (`start_investigation`, `complete_investigation`);
* `src/dlq_monitor/core/monitor.py` — the monitor
  (`_should_auto_investigate`, `_execute_claude_investigation`'s
  `run_investigation` thread body, `_handle_alert`).

Times are modelled as natural numbers of seconds.  Python dictionaries keyed
by queue name are modelled as functions `String → Option α`; the SQLite
tables behind SQLAlchemy are modelled as lists of records, and "the
committed database state" is a `Store` value threaded explicitly.
-/

namespace DlqMonitor

/-- A Python value passed as a keyword argument to
`DatabaseService.update_investigation`.  Only string- and integer-valued
arguments occur in the repository's call sites. -/
inductive PyVal where
  | str (s : String)
  | nat (n : Nat)
  deriving DecidableEq, Repr

/-- One row of the `investigations` table
(`src/dlq_monitor/models/neurocenter_models.py`, class `Investigation`).
`started_at` has column default `func.now()`, so it is populated on insert;
`completed_at` and `duration_seconds` start out NULL.  The SQLAlchemy
integer primary key is elided: rows are identified by the unique
`investigation_id` string, exactly as every query in
`database_service.py` does (`filter_by(investigation_id=...)`). -/
structure Investigation where
  investigation_id : String
  dlq_name : String
  message_count : Nat
  agent_id : Option String
  status : String
  progress : Nat
  error_type : Option String
  error_message : Option String
  root_cause : Option String
  proposed_fix : Option String
  code_diff : Option String
  stack_trace : Option String
  pr_number : Option Nat
  pr_url : Option String
  pr_status : Option String
  initial_prompt : Option String
  started_at : Option Nat
  completed_at : Option Nat
  duration_seconds : Option Nat
  deriving DecidableEq, Repr

/-- One row of the `investigation_timeline` table
(`neurocenter_models.py`, class `InvestigationTimeline`).  The row refers to
its investigation by the unique string id (the code stores the integer
primary key of the unique matching row, which is in bijection with it). -/
structure TimelineEvent where
  investigation_id : String
  agent_id : Option String
  event_type : String
  event_title : String
  event_description : Option String
  event_icon : String
  timestamp : Nat
  deriving DecidableEq, Repr

/-- The committed database state: the two tables the claims are about.
Rows appear in insertion order, as SQLite assigns ascending primary keys. -/
structure Store where
  investigations : List Investigation
  timeline : List TimelineEvent
  deriving DecidableEq, Repr

def Store.empty : Store := ⟨[], []⟩

/-- `session.query(Investigation).filter_by(investigation_id=id).first()`:
the first row whose `investigation_id` matches. -/
def findInv (s : Store) (id : String) : Option Investigation :=
  s.investigations.find? (fun i => i.investigation_id == id)

/-- Python `hasattr(investigation, key)` for the columns of the
`Investigation` model: true exactly for the attribute names of the entity. -/
def hasAttr (k : String) : Bool :=
  k == "investigation_id" || k == "dlq_name" || k == "message_count" ||
  k == "agent_id" || k == "status" || k == "progress" ||
  k == "error_type" || k == "error_message" || k == "root_cause" ||
  k == "proposed_fix" || k == "code_diff" || k == "stack_trace" ||
  k == "pr_number" || k == "pr_url" || k == "pr_status" ||
  k == "initial_prompt" || k == "started_at" || k == "completed_at" ||
  k == "duration_seconds"

/-- `if hasattr(investigation, key): setattr(investigation, key, value)`
from `DatabaseService.update_investigation`.  A key that is not an
attribute of the entity leaves the row unchanged.  (Call sites in the
repository always pass a value of the column's type, so a type mismatch,
which dynamic Python would accept, is modelled as a no-op; no claim
depends on that corner.) -/
def setAttr (i : Investigation) (k : String) (v : PyVal) : Investigation :=
  if k = "investigation_id" then
    match v with | .str s => { i with investigation_id := s } | _ => i
  else if k = "dlq_name" then
    match v with | .str s => { i with dlq_name := s } | _ => i
  else if k = "message_count" then
    match v with | .nat n => { i with message_count := n } | _ => i
  else if k = "agent_id" then
    match v with | .str s => { i with agent_id := some s } | _ => i
  else if k = "status" then
    match v with | .str s => { i with status := s } | _ => i
  else if k = "progress" then
    match v with | .nat n => { i with progress := n } | _ => i
  else if k = "error_type" then
    match v with | .str s => { i with error_type := some s } | _ => i
  else if k = "error_message" then
    match v with | .str s => { i with error_message := some s } | _ => i
  else if k = "root_cause" then
    match v with | .str s => { i with root_cause := some s } | _ => i
  else if k = "proposed_fix" then
    match v with | .str s => { i with proposed_fix := some s } | _ => i
  else if k = "code_diff" then
    match v with | .str s => { i with code_diff := some s } | _ => i
  else if k = "stack_trace" then
    match v with | .str s => { i with stack_trace := some s } | _ => i
  else if k = "pr_number" then
    match v with | .nat n => { i with pr_number := some n } | _ => i
  else if k = "pr_url" then
    match v with | .str s => { i with pr_url := some s } | _ => i
  else if k = "pr_status" then
    match v with | .str s => { i with pr_status := some s } | _ => i
  else if k = "initial_prompt" then
    match v with | .str s => { i with initial_prompt := some s } | _ => i
  else if k = "started_at" then
    match v with | .nat n => { i with started_at := some n } | _ => i
  else if k = "completed_at" then
    match v with | .nat n => { i with completed_at := some n } | _ => i
  else if k = "duration_seconds" then
    match v with | .nat n => { i with duration_seconds := some n } | _ => i
  else i

/-- The `for key, value in kwargs.items(): ...` loop of
`update_investigation`. -/
def applyKwargs (i : Investigation) (kwargs : List (String × PyVal)) : Investigation :=
  kwargs.foldl (fun acc kv => setAttr acc kv.1 kv.2) i

/-- The whole body run on the fetched row by `update_investigation`:
apply the kwargs, then, mirroring
`if kwargs.get('status') == 'completed' and investigation.started_at:`,
stamp `completed_at = now` and `duration_seconds = completed_at - started_at`
only when the requested status is exactly `'completed'` (a `datetime` is
always truthy, and `started_at` is non-NULL by column default, but the
guard is kept faithfully). -/
def applyUpdate (now : Nat) (kwargs : List (String × PyVal)) (i : Investigation) :
    Investigation :=
  let i' := applyKwargs i kwargs
  if kwargs.lookup "status" = some (PyVal.str "completed") then
    match i'.started_at with
    | some t0 =>
        { i' with completed_at := some now, duration_seconds := some (now - t0) }
    | none => i'
  else i'

/-- Apply `f` to the first row whose `investigation_id` matches, exactly as
`filter_by(...).first()` followed by in-place mutation does. -/
def updateFirstInv : List Investigation → String → (Investigation → Investigation) →
    List Investigation
  | [], _, _ => []
  | i :: rest, id, f =>
      if i.investigation_id == id then f i :: rest
      else i :: updateFirstInv rest id f

/-- `DatabaseService.update_investigation(investigation_id, **kwargs)`
(`database_service.py` lines 189–205): fetch the row; if absent, do
nothing; otherwise apply the kwargs and the completion stamping.  The
function never raises for an unknown id or status — there is no
`InvalidTransition` anywhere in the code. -/
def update_investigation (s : Store) (now : Nat) (id : String)
    (kwargs : List (String × PyVal)) : Store :=
  match findInv s id with
  | none => s
  | some _ =>
      { s with investigations := updateFirstInv s.investigations id (applyUpdate now kwargs) }

/-- `DatabaseService.add_timeline_event` (lines 238–261): fetch the
investigation **in the session the call opens**; if it is not found the
function silently does nothing; otherwise append the event row. -/
def add_timeline_event (s : Store) (now : Nat) (id : String)
    (eventType eventTitle : String) (eventDescription : Option String)
    (eventIcon : Option String) (agentId : Option String) : Store :=
  match findInv s id with
  | none => s
  | some _ =>
      { s with timeline := s.timeline ++
          [{ investigation_id := id, agent_id := agentId,
             event_type := eventType, event_title := eventTitle,
             event_description := eventDescription,
             event_icon := eventIcon.getD "info-circle",
             timestamp := now }] }

/-- `investigation_id = f"inv_{datetime.now().strftime(...)}_{dlq_name[:20]}"`:
the id is derived from the creation time and the first 20 characters of the
queue name. -/
def mkInvestigationId (now : Nat) (dlq : String) : String :=
  "inv_" ++ toString now ++ "_" ++ dlq.take 20

/-- `DatabaseService.create_investigation` (lines 160–187).

The method opens a session, builds the new `Investigation` row with
`session.add` (the INSERT is only flushed at commit, when the `with` block
ends), and *before committing* calls `self.add_timeline_event(...)` for the
`'detected'` event.  `add_timeline_event` opens a **new** session on a
separate SQLite connection, so its `filter_by(investigation_id=...)` query
runs against the committed state, in which the new row does not yet exist
(the outer session has neither flushed nor committed it, and an uncommitted
insert on another connection would be invisible anyway).  The embedding
therefore runs `add_timeline_event` against the store as it is *before* the
new row is appended; the row itself is committed when the outer session
closes.  `newInvestigationRow` is the row `create_investigation` builds:
the remaining columns keep their model defaults (`status='initiated'`,
`progress=0`, `started_at=func.now()`, everything else NULL). -/
def newInvestigationRow (now : Nat) (dlq : String) (count : Nat)
    (agentId : Option String) (prompt : Option String) : Investigation :=
  { investigation_id := mkInvestigationId now dlq, dlq_name := dlq,
    message_count := count,
    agent_id := agentId, status := "initiated", progress := 0,
    error_type := none, error_message := none, root_cause := none,
    proposed_fix := none, code_diff := none, stack_trace := none,
    pr_number := none, pr_url := none, pr_status := none,
    initial_prompt := prompt, started_at := some now,
    completed_at := none, duration_seconds := none }

/-- The body of `DatabaseService.create_investigation`: build the row, run
the (ineffective, see above) nested `add_timeline_event` call against the
committed state, then commit the row; returns the new store and the
generated id. -/
def create_investigation (s : Store) (now : Nat) (dlq : String) (count : Nat)
    (agentId : Option String) (prompt : Option String) : Store × String :=
  let id := mkInvestigationId now dlq
  let inv : Investigation := newInvestigationRow now dlq count agentId prompt
  let s1 := add_timeline_event s now id "detected"
      ("Error detected in queue: " ++ dlq)
      (some (toString count ++ " messages found in DLQ"))
      (some "exclamation-triangle") none
  let s2 : Store := { s1 with investigations := s1.investigations ++ [inv] }
  (s2, id)

/-- `DatabaseService.get_active_investigations` (lines 207–214):
`filter(Investigation.status.notin_(['completed', 'failed']))`.  The
`order_by(desc(started_at))` clause only orders the presentation and is
omitted; the returned *set* of rows is the filter below.  Note the filter
names only `'completed'` and `'failed'`. -/
def get_active_investigations (s : Store) : List Investigation :=
  s.investigations.filter (fun i => i.status != "completed" && i.status != "failed")

/-- `InvestigationService.start_investigation` (investigation_service.py
lines 22–60).  `find_agent_for_dlq` returns `'investigator'` when no
mapping matches (the default configuration has no mappings);
`update_agent_status` touches only the `agents` table and is elided.  After
`create_investigation` returns (its session committed), a `'launched'`
timeline event is appended — this second `add_timeline_event` call *does*
find the row.  No check of any kind is made for an existing investigation
on the same queue. -/
def start_investigation (s : Store) (now : Nat) (dlq : String) (count : Nat) :
    Store × String :=
  let agentId := "investigator"
  let p := create_investigation s now dlq count (some agentId)
      (some ("Investigate DLQ " ++ dlq ++ " with " ++ toString count ++ " messages."))
  let s2 := add_timeline_event p.1 now p.2 "launched"
      (agentId.capitalize ++ " Agent launched")
      (some ("Starting investigation of " ++ toString count ++ " messages"))
      (some "play-circle") (some agentId)
  (s2, p.2)

/-- `InvestigationService.complete_investigation` (lines 161–205):
status is `'completed'` on success and `'failed'` otherwise;
`update_investigation` is called with that status and `progress=100`; the
final timeline event and the agent bookkeeping run only when the id is in
the service's in-memory `active_investigations` dict (modelled by
`inActive`); agent-table bookkeeping is elided. -/
def complete_investigation (s : Store) (now : Nat) (id : String) (success : Bool)
    (notes : Option String) (agentId : String) (inActive : Bool) : Store :=
  let status := if success then "completed" else "failed"
  let s1 := update_investigation s now id
      [("status", PyVal.str status), ("progress", PyVal.nat 100)]
  if inActive then
    add_timeline_event s1 now id "completed"
      (if success then "Investigation completed" else "Investigation failed")
      notes (some (if success then "check-circle" else "x-circle")) (some agentId)
  else s1

/-- The terminal statuses named by the specification (`completed`, `failed`,
`timeout`). -/
def terminalStatuses : List String := ["completed", "failed", "timeout"]

/-- Number of persisted investigations for a queue whose status is
non-terminal in the specification's sense. -/
def nonTerminalCount (s : Store) (q : String) : Nat :=
  (s.investigations.filter
    (fun i => i.dlq_name == q && !(terminalStatuses.contains i.status))).length

/-- A tracked `subprocess.Popen` handle, as `_should_auto_investigate`
inspects it: `running` is `proc.poll() is None`. -/
structure ProcHandle where
  running : Bool
  deriving DecidableEq, Repr

/-- The mutable per-queue dictionaries of `DLQMonitor`
(`core/monitor.py` lines 295–301): `last_alerts`, `auto_investigations`
(written only in `run_investigation`'s outer `finally`), and
`investigation_processes`. -/
structure MonitorState where
  lastAlerts : String → Option Nat
  autoInvestigations : String → Option Nat
  investigationProcesses : String → Option ProcHandle

/-- Point update of a queue-keyed dictionary. -/
def setMap {α : Type} (m : String → Option α) (k : String) (v : Option α) :
    String → Option α :=
  fun k' => if k' = k then v else m k'

/-- The cooldown comparison of `_should_auto_investigate` (lines 449–457):
with no recorded entry the check passes; otherwise it fails exactly when
`(now - last).total_seconds() < investigation_cooldown`. -/
def cooldownOk (cooldown now : Nat) (last : Option Nat) : Bool :=
  match last with
  | none => true
  | some t => !(now - t < cooldown)

/-- `DLQMonitor._should_auto_investigate(queue_name)` (lines 434–457).
Returns the decision together with the (possibly mutated) state: a
finished process found in `investigation_processes` is deleted before the
cooldown check.  `investigation_cooldown` is an instance field initialised
to 3600 seconds; it is passed here as the `cooldown` parameter. -/
def should_auto_investigate (autoDlqs : List String) (cooldown now : Nat)
    (st : MonitorState) (q : String) : Bool × MonitorState :=
  if !(autoDlqs.contains q) then (false, st)
  else
    match st.investigationProcesses q with
    | some p =>
        if p.running then (false, st)
        else
          let st' : MonitorState :=
            { st with investigationProcesses := setMap st.investigationProcesses q none }
          (cooldownOk cooldown now (st'.autoInvestigations q), st')
    | none => (cooldownOk cooldown now (st.autoInvestigations q), st)

/-- How one supervised run of the external agent can unfold, from the point
of view of the `run_investigation` thread body inside
`_execute_claude_investigation` (lines 535–608):

* `preSpawnError` — an exception before the handle is stored (the initial
  notification or `subprocess.Popen` raises): caught by the outer
  `except`, and the handle was never recorded;
* `exited code` — `communicate` returns within
  `claude_command_timeout` with the given exit code;
* `deadlineExceeded` — `communicate` raises `subprocess.TimeoutExpired`:
  the process is killed;
* `supervisionError` — an exception inside the inner `try` after the
  handle was stored (e.g. a notifier failure): the inner `finally` still
  runs, then the outer `except` catches. -/
inductive RunBehavior where
  | preSpawnError
  | exited (code : Int)
  | deadlineExceeded
  | supervisionError
  deriving DecidableEq, Repr

/-- How the run was classified: success notification and log
(`returncode == 0`), failure notification (`returncode != 0`), or timeout
notification after the forced kill. -/
inductive Outcome where
  | completed
  | failed
  | timeout
  deriving DecidableEq, Repr

/-- Result of one supervised run: the monitor state afterwards, the
classification (none when an exception pre-empted it), and whether
`process.kill()` was called. -/
structure RunResult where
  state : MonitorState
  outcome : Option Outcome
  killed : Bool

/-- The `run_investigation` thread body of
`DLQMonitor._execute_claude_investigation` (lines 535–608), as a state
transformer.  `finishTime` is the value of `datetime.now()` at the outer
`finally`, which — on **every** path — writes
`self.auto_investigations[queue_name] = datetime.now()`, i.e. records the
time the supervision *finished*, not the time the investigation was
approved.  On the three paths that stored the handle, the inner `finally`
(lines 592–594) removes it again before the routine exits. -/
def run_investigation (st : MonitorState) (q : String) (finishTime : Nat)
    (b : RunBehavior) : RunResult :=
  match b with
  | .preSpawnError =>
      { state := { st with
          autoInvestigations := setMap st.autoInvestigations q (some finishTime) },
        outcome := none, killed := false }
  | .exited code =>
      let st1 : MonitorState :=
        { st with investigationProcesses :=
            setMap st.investigationProcesses q (some { running := true }) }
      let st2 : MonitorState :=
        { st1 with investigationProcesses := setMap st1.investigationProcesses q none }
      { state := { st2 with
          autoInvestigations := setMap st2.autoInvestigations q (some finishTime) },
        outcome := some (if code = 0 then Outcome.completed else Outcome.failed),
        killed := false }
  | .deadlineExceeded =>
      let st1 : MonitorState :=
        { st with investigationProcesses :=
            setMap st.investigationProcesses q (some { running := true }) }
      let st2 : MonitorState :=
        { st1 with investigationProcesses := setMap st1.investigationProcesses q none }
      { state := { st2 with
          autoInvestigations := setMap st2.autoInvestigations q (some finishTime) },
        outcome := some Outcome.timeout,
        killed := true }
  | .supervisionError =>
      let st1 : MonitorState :=
        { st with investigationProcesses :=
            setMap st.investigationProcesses q (some { running := true }) }
      let st2 : MonitorState :=
        { st1 with investigationProcesses := setMap st1.investigationProcesses q none }
      { state := { st2 with
          autoInvestigations := setMap st2.autoInvestigations q (some finishTime) },
        outcome := none, killed := false }

/-- `DLQMonitor._handle_alert` (lines 620–637).  The guard is

`queue_name not in self.last_alerts or
 (datetime.now() - self.last_alerts[queue_name]).seconds > 300`.

`timedelta.seconds` is the *seconds component* of the delta — the elapsed
time modulo 86400 for a non-negative delta — not `total_seconds()`.
Returns whether `send_critical_alert` was invoked; `last_alerts[q]` is set
to the alert's timestamp (the current time) only on that path. -/
def handle_alert (st : MonitorState) (now : Nat) (q : String) :
    Bool × MonitorState :=
  let shouldNotify :=
    match st.lastAlerts q with
    | none => true
    | some t => (now - t) % 86400 > 300
  if shouldNotify then
    (true, { st with lastAlerts := setMap st.lastAlerts q (some now) })
  else (false, st)

/-- One queue's slice of `DLQMonitor.check_dlq_messages` (lines 403–432):
`_handle_alert` is reached only when the observed `message_count` is
positive; an empty queue changes nothing. -/
def observe_queue (st : MonitorState) (now : Nat) (q : String) (count : Nat) :
    Bool × MonitorState :=
  if count > 0 then handle_alert st now q else (false, st)

/-- A monitor state with all three dictionaries empty, as right after
`DLQMonitor.__init__`. -/
def emptyMonitorState : MonitorState :=
  { lastAlerts := fun _ => none,
    autoInvestigations := fun _ => none,
    investigationProcesses := fun _ => none }

/-- A plain investigation row used in concrete scenarios: only the fields a
scenario fixes are non-trivial. -/
def fixtureInv (id q status : String) (t0 : Option Nat) : Investigation :=
  { investigation_id := id, dlq_name := q, message_count := 3,
    agent_id := none, status := status, progress := 0,
    error_type := none, error_message := none, root_cause := none,
    proposed_fix := none, code_diff := none, stack_trace := none,
    pr_number := none, pr_url := none, pr_status := none,
    initial_prompt := none, started_at := t0,
    completed_at := none, duration_seconds := none }

/-- A store holding one investigation for `orders-dlq` already in the
terminal status `completed`. -/
def storeCompleted : Store := ⟨[fixtureInv "i1" "orders-dlq" "completed" (some 0)], []⟩

/-- A store holding one running investigation for `orders-dlq`, started at
time 0. -/
def storeStarted : Store := ⟨[fixtureInv "i1" "orders-dlq" "initiated" (some 0)], []⟩

/-- A store holding one investigation for `orders-dlq` in the terminal
status `timeout`. -/
def storeTimeout : Store := ⟨[fixtureInv "i2" "orders-dlq" "timeout" (some 0)], []⟩

/-- A monitor state in which a live agent process is tracked for
`orders-dlq`. -/
def stRunning : MonitorState :=
  { emptyMonitorState with
    investigationProcesses :=
      setMap emptyMonitorState.investigationProcesses "orders-dlq" (some { running := true }) }

/-- A monitor state in which the finished supervision of `orders-dlq`
recorded its finish time 1000. -/
def stCooled : MonitorState :=
  { emptyMonitorState with
    autoInvestigations := setMap emptyMonitorState.autoInvestigations "orders-dlq" (some 1000) }

/-- A monitor state in which the last alert for `orders-dlq` was emitted at
time 0. -/
def stAlerted : MonitorState :=
  { emptyMonitorState with
    lastAlerts := setMap emptyMonitorState.lastAlerts "orders-dlq" (some 0) }

/-! General lemmas about the embedded operations, shared by the claim
theorems below. -/

theorem setMap_same {α : Type} (m : String → Option α) (k : String) (v : Option α) :
    setMap m k v k = v := by
  simp [setMap]

theorem add_timeline_event_investigations (s : Store) (now : Nat) (id : String)
    (ty ti : String) (d ic ag : Option String) :
    (add_timeline_event s now id ty ti d ic ag).investigations = s.investigations := by
  unfold add_timeline_event
  split <;> rfl

theorem create_investigation_investigations (s : Store) (now : Nat) (dlq : String)
    (count : Nat) (a p : Option String) :
    (create_investigation s now dlq count a p).1.investigations =
      s.investigations ++ [newInvestigationRow now dlq count a p] := by
  unfold create_investigation
  simp [add_timeline_event_investigations]

theorem start_investigation_investigations (s : Store) (now : Nat) (dlq : String)
    (count : Nat) :
    (start_investigation s now dlq count).1.investigations =
      s.investigations ++ [newInvestigationRow now dlq count (some "investigator")
        (some ("Investigate DLQ " ++ dlq ++ " with " ++ toString count ++ " messages."))] := by
  unfold start_investigation
  simp [add_timeline_event_investigations, create_investigation_investigations]

theorem filter_append_initiated (l : List Investigation) (q : String) (inv : Investigation)
    (hq : inv.dlq_name = q) (hst : inv.status = "initiated") :
    ((l ++ [inv]).filter
        (fun i => i.dlq_name == q && !(terminalStatuses.contains i.status))).length =
      (l.filter (fun i => i.dlq_name == q && !(terminalStatuses.contains i.status))).length
        + 1 := by
  rw [List.filter_append, List.length_append]
  simp [List.filter, hq, hst, terminalStatuses]

theorem find?_updateFirstInv (l : List Investigation) (id : String)
    (f : Investigation → Investigation)
    (hf : ∀ i, (f i).investigation_id = i.investigation_id) :
    (updateFirstInv l id f).find? (fun i => i.investigation_id == id) =
      (l.find? (fun i => i.investigation_id == id)).map f := by
  induction l with
  | nil => simp [updateFirstInv]
  | cons a rest ih =>
      by_cases h : (a.investigation_id == id) = true
      · simp [updateFirstInv, h, List.find?, hf a]
      · simp [updateFirstInv, h, List.find?, ih]

theorem applyKwargs_status (i : Investigation) (v : String) :
    applyKwargs i [("status", PyVal.str v)] = { i with status := v } := rfl

theorem applyKwargs_status_progress (i : Investigation) (v : String) :
    applyKwargs i [("status", PyVal.str v), ("progress", PyVal.nat 100)] =
      { i with status := v, progress := 100 } := rfl

theorem applyUpdate_id_status (now : Nat) (v : String) (j : Investigation) :
    (applyUpdate now [("status", PyVal.str v)] j).investigation_id =
      j.investigation_id := by
  by_cases hv : v = "completed"
  · subst hv
    cases hsa : j.started_at <;>
      simp [applyUpdate, applyKwargs_status, hsa]
  · simp [applyUpdate, applyKwargs_status, hv]

theorem applyUpdate_id_status_progress (now : Nat) (v : String) (j : Investigation) :
    (applyUpdate now [("status", PyVal.str v), ("progress", PyVal.nat 100)] j).investigation_id =
      j.investigation_id := by
  by_cases hv : v = "completed"
  · subst hv
    cases hsa : j.started_at <;>
      simp [applyUpdate, applyKwargs_status_progress, hsa]
  · simp [applyUpdate, applyKwargs_status_progress, hv]

theorem applyUpdate_status (now : Nat) (v : String) (j : Investigation) :
    (applyUpdate now [("status", PyVal.str v)] j).status = v := by
  by_cases hv : v = "completed"
  · subst hv
    cases hsa : j.started_at <;>
      simp [applyUpdate, applyKwargs_status, hsa]
  · simp [applyUpdate, applyKwargs_status, hv]

theorem applyUpdate_fields_completed (now : Nat) (i : Investigation) (t0 : Nat)
    (hs : i.started_at = some t0) :
    applyUpdate now [("status", PyVal.str "completed"), ("progress", PyVal.nat 100)] i =
      { i with status := "completed", progress := 100,
               completed_at := some now, duration_seconds := some (now - t0) } := by
  cases i with
  | mk iid dn mc aid st pr et em rc pf cd sk pn pu ps ip sa ca ds =>
      have hs' : sa = some t0 := hs
      subst hs'
      rfl

theorem applyUpdate_fields_failed (now : Nat) (i : Investigation) :
    applyUpdate now [("status", PyVal.str "failed"), ("progress", PyVal.nat 100)] i =
      { i with status := "failed", progress := 100 } := rfl

theorem findInv_update_investigation (s : Store) (now : Nat) (id : String)
    (kwargs : List (String × PyVal)) (inv : Investigation)
    (h : findInv s id = some inv)
    (hf : ∀ j, (applyUpdate now kwargs j).investigation_id = j.investigation_id) :
    findInv (update_investigation s now id kwargs) id =
      some (applyUpdate now kwargs inv) := by
  unfold update_investigation
  rw [h]
  unfold findInv at h ⊢
  rw [find?_updateFirstInv _ _ _ hf, h]
  rfl

/-! Claim theorems. -/

set_option maxRecDepth 8000 in
/-- C1, counterexample: two `start_investigation` calls for the same queue
both succeed, leaving **two** non-terminal (`initiated`) investigations for
`orders-dlq` in the persisted set — the claim says a second creation is
never permitted and at most one non-terminal investigation per queue can
ever be persisted. -/
theorem C1_counterexample :
    nonTerminalCount
      (start_investigation (start_investigation Store.empty 5 "orders-dlq" 7).1
        10 "orders-dlq" 9).1 "orders-dlq" = 2 := by
  rfl

/-- C1, amended: creation is unguarded — `start_investigation` always
appends a fresh `initiated` investigation, increasing the queue's
non-terminal count by one regardless of what is already persisted; the
at-most-one property is enforced only for the *supervised process* by
`_should_auto_investigate`, which refuses while a live process is tracked
for the queue. -/
theorem C1_amended (s : Store) (now : Nat) (q : String) (n : Nat)
    (dlqs : List String) (cd tnow : Nat) (st : MonitorState) (p : ProcHandle)
    (hp : st.investigationProcesses q = some p) (hrun : p.running = true) :
    nonTerminalCount (start_investigation s now q n).1 q = nonTerminalCount s q + 1 ∧
    (should_auto_investigate dlqs cd tnow st q).1 = false := by
  constructor
  · unfold nonTerminalCount
    rw [start_investigation_investigations]
    exact filter_append_initiated _ _ _ rfl rfl
  · unfold should_auto_investigate
    by_cases hc : q ∈ dlqs
    · simp [hc, hp, hrun]
    · simp [hc]

/-- C1, witness for the amended theorem at a concrete input. -/
theorem C1_witness :
    nonTerminalCount (start_investigation Store.empty 5 "orders-dlq" 7).1 "orders-dlq" =
        nonTerminalCount Store.empty "orders-dlq" + 1 ∧
    (should_auto_investigate ["orders-dlq"] 3600 0 stRunning "orders-dlq").1 = false :=
  C1_amended Store.empty 5 "orders-dlq" 7 ["orders-dlq"] 3600 0 stRunning
    { running := true } rfl rfl

/-- C2, counterexample: the claim says a transition request on a terminal
investigation fails with `InvalidTransition` and changes nothing; here a
`completed` investigation is moved to `analyzing` with no error. -/
theorem C2_counterexample :
    (findInv (update_investigation storeCompleted 50 "i1"
        [("status", PyVal.str "analyzing")]) "i1").map Investigation.status =
      some "analyzing" := by
  rfl

/-- C2, amended: `update_investigation` applies any requested status change
unconditionally — whatever the investigation's current status, including
the terminal ones, the requested status is written; no `InvalidTransition`
error exists anywhere in the code (the function is total and returns
normally). -/
theorem C2_amended (s : Store) (now : Nat) (id v : String)
    (h : (findInv s id).isSome) :
    (findInv (update_investigation s now id [("status", PyVal.str v)]) id).map
        Investigation.status = some v := by
  obtain ⟨inv, hinv⟩ := Option.isSome_iff_exists.mp h
  rw [findInv_update_investigation s now id _ inv hinv (applyUpdate_id_status now v)]
  simp [applyUpdate_status]

/-- C2, witness for the amended theorem at a concrete input. -/
theorem C2_witness :
    (findInv (update_investigation storeStarted 80 "i1"
        [("status", PyVal.str "analyzing")]) "i1").map Investigation.status =
      some "analyzing" :=
  C2_amended storeStarted 80 "i1" "analyzing" rfl

/-- C3, counterexample: the claim says the cooldown record is written at
the moment an approval happens and is not modified at finish.  In the code
the approval decision (`_should_auto_investigate`, here at time 0) leaves
`auto_investigations` untouched, and the supervision routine's outer
`finally` writes the *finish* time (1000), which differs from the approved
start time (0). -/
theorem C3_counterexample :
    (should_auto_investigate ["q1"] 3600 0 emptyMonitorState "q1").1 = true ∧
    (should_auto_investigate ["q1"] 3600 0 emptyMonitorState "q1").2.autoInvestigations
        "q1" = none ∧
    (run_investigation emptyMonitorState "q1" 1000
        (RunBehavior.exited 0)).state.autoInvestigations "q1" = some 1000 ∧
    (1000 : Nat) ≠ 0 := by
  refine ⟨rfl, rfl, rfl, by norm_num⟩

/-- C3, amended: the cooldown timestamp for a queue is written when the
supervision routine *finishes* (its outer `finally`, on every exit path),
not when the investigation is approved to start; a second approval request
within `investigation_cooldown` of that recorded finish time is rejected
(`_should_auto_investigate` returns `False`, so `_execute_claude_investigation`
is never called and no investigation is created). -/
theorem C3_amended (st st' : MonitorState) (q : String) (fin : Nat)
    (b : RunBehavior) (dlqs : List String) (cd now : Nat)
    (h1 : st'.autoInvestigations q = some fin)
    (h2 : st'.investigationProcesses q = none)
    (h3 : now - fin < cd) :
    (run_investigation st q fin b).state.autoInvestigations q = some fin ∧
    (should_auto_investigate dlqs cd now st' q).1 = false := by
  constructor
  · cases b <;> simp [run_investigation, setMap]
  · unfold should_auto_investigate
    by_cases hc : q ∈ dlqs
    · simp [hc, h2, cooldownOk, h1, h3]
    · simp [hc]

/-- C3, witness for the amended theorem at a concrete input. -/
theorem C3_witness :
    (run_investigation emptyMonitorState "orders-dlq" 1000
        RunBehavior.supervisionError).state.autoInvestigations "orders-dlq" = some 1000 ∧
    (should_auto_investigate ["orders-dlq"] 3600 1500 stCooled "orders-dlq").1 = false :=
  C3_amended emptyMonitorState stCooled "orders-dlq" 1000 RunBehavior.supervisionError
    ["orders-dlq"] 3600 1500 rfl rfl (by norm_num)

/-- C4: on every exit path of the supervised run — exit code 0, nonzero
exit, forced kill on deadline, or an exception while supervising — the
tracked process handle for the queue is gone from
`investigation_processes` when the routine finishes (given the gate's
guarantee that no stale handle was tracked when the run began). -/
theorem C4 (st : MonitorState) (q : String) (fin : Nat) (b : RunBehavior)
    (h : st.investigationProcesses q = none) :
    (run_investigation st q fin b).state.investigationProcesses q = none := by
  cases b <;> simp [run_investigation, setMap, h]

/-- C4, witness at a concrete input (deadline-kill path). -/
theorem C4_witness :
    (run_investigation emptyMonitorState "orders-dlq" 99
        RunBehavior.deadlineExceeded).state.investigationProcesses "orders-dlq" = none :=
  C4 emptyMonitorState "orders-dlq" 99 RunBehavior.deadlineExceeded rfl

/-- C5: the outcome of a supervised run is classified exactly by exit code
and deadline — exit code 0 within the deadline is classified `completed`,
a nonzero code `failed`, and a deadline overrun kills the process and is
classified `timeout`. -/
theorem C5 (st : MonitorState) (q : String) (fin : Nat) (c : Int) :
    (run_investigation st q fin (RunBehavior.exited c)).outcome =
        some (if c = 0 then Outcome.completed else Outcome.failed) ∧
    (run_investigation st q fin (RunBehavior.exited c)).killed = false ∧
    (run_investigation st q fin RunBehavior.deadlineExceeded).outcome =
        some Outcome.timeout ∧
    (run_investigation st q fin RunBehavior.deadlineExceeded).killed = true :=
  ⟨rfl, rfl, rfl, rfl⟩

set_option maxRecDepth 8000 in
/-- C6, code bug: `create_investigation` writes **no** `'detected'`
timeline event — the nested `add_timeline_event` call runs in a fresh
session that cannot see the still-uncommitted investigation row and
silently does nothing — so after creation the timeline is empty, and after
`start_investigation` the first (and only) event is `'launched'`, not
`'detected'`. -/
theorem C6_code_bug :
    (create_investigation Store.empty 5 "orders-dlq" 7 (some "investigator")
        none).1.timeline = [] ∧
    (create_investigation Store.empty 5 "orders-dlq" 7 (some "investigator")
        none).1.investigations.map Investigation.status = ["initiated"] ∧
    (start_investigation Store.empty 5 "orders-dlq" 7).1.timeline.map
        TimelineEvent.event_type = ["launched"] := by
  refine ⟨rfl, rfl, rfl⟩

/-- C7, counterexample: the claim says every terminal transition stamps
`completed_at` and `duration_seconds`; a transition to the terminal status
`failed` leaves both NULL. -/
theorem C7_counterexample :
    (findInv (update_investigation storeStarted 100 "i1"
        [("status", PyVal.str "failed"), ("progress", PyVal.nat 100)]) "i1").map
        Investigation.completed_at = some none ∧
    (findInv (update_investigation storeStarted 100 "i1"
        [("status", PyVal.str "failed"), ("progress", PyVal.nat 100)]) "i1").map
        Investigation.duration_seconds = some none := by
  refine ⟨rfl, rfl⟩

/-- C7, amended: only the transition to `completed` stamps `completed_at`
with the transition time and computes `duration_seconds` as the elapsed
time since `started_at`; transitions to `failed` (and `timeout`, which no
caller even requests) leave both fields unchanged. -/
theorem C7_amended (s : Store) (now : Nat) (id : String) (inv : Investigation)
    (t0 : Nat) (h : findInv s id = some inv) (hs : inv.started_at = some t0) :
    (findInv (update_investigation s now id
        [("status", PyVal.str "completed"), ("progress", PyVal.nat 100)]) id).map
        Investigation.completed_at = some (some now) ∧
    (findInv (update_investigation s now id
        [("status", PyVal.str "completed"), ("progress", PyVal.nat 100)]) id).map
        Investigation.duration_seconds = some (some (now - t0)) ∧
    (findInv (update_investigation s now id
        [("status", PyVal.str "failed"), ("progress", PyVal.nat 100)]) id).map
        Investigation.completed_at = some inv.completed_at ∧
    (findInv (update_investigation s now id
        [("status", PyVal.str "failed"), ("progress", PyVal.nat 100)]) id).map
        Investigation.duration_seconds = some inv.duration_seconds := by
  have hc := findInv_update_investigation s now id
    [("status", PyVal.str "completed"), ("progress", PyVal.nat 100)] inv h
    (applyUpdate_id_status_progress now "completed")
  have hfa := findInv_update_investigation s now id
    [("status", PyVal.str "failed"), ("progress", PyVal.nat 100)] inv h
    (applyUpdate_id_status_progress now "failed")
  rw [applyUpdate_fields_completed now inv t0 hs] at hc
  rw [applyUpdate_fields_failed] at hfa
  refine ⟨?_, ?_, ?_, ?_⟩ <;> simp [hc, hfa]

/-- C7, witness for the amended theorem at a concrete input. -/
theorem C7_witness :
    (findInv (update_investigation storeStarted 400 "i1"
        [("status", PyVal.str "completed"), ("progress", PyVal.nat 100)]) "i1").map
        Investigation.completed_at = some (some 400) ∧
    (findInv (update_investigation storeStarted 400 "i1"
        [("status", PyVal.str "completed"), ("progress", PyVal.nat 100)]) "i1").map
        Investigation.duration_seconds = some (some (400 - 0)) ∧
    (findInv (update_investigation storeStarted 400 "i1"
        [("status", PyVal.str "failed"), ("progress", PyVal.nat 100)]) "i1").map
        Investigation.completed_at =
      some (fixtureInv "i1" "orders-dlq" "initiated" (some 0)).completed_at ∧
    (findInv (update_investigation storeStarted 400 "i1"
        [("status", PyVal.str "failed"), ("progress", PyVal.nat 100)]) "i1").map
        Investigation.duration_seconds =
      some (fixtureInv "i1" "orders-dlq" "initiated" (some 0)).duration_seconds :=
  C7_amended storeStarted 400 "i1" (fixtureInv "i1" "orders-dlq" "initiated" (some 0))
    0 rfl rfl

/-- C8, counterexample: an investigation whose status is the terminal
`timeout` is returned by `get_active_investigations` — the claim says all
terminal investigations are excluded. -/
theorem C8_counterexample :
    (get_active_investigations storeTimeout).map Investigation.status = ["timeout"] := by
  rfl

/-- C8, amended: `get_active_investigations` excludes exactly the statuses
`completed` and `failed`; an investigation in any other status — including
the terminal `timeout` — is included. -/
theorem C8_amended (s : Store) (i : Investigation) :
    i ∈ get_active_investigations s ↔
      i ∈ s.investigations ∧ i.status ≠ "completed" ∧ i.status ≠ "failed" := by
  simp [get_active_investigations, List.mem_filter, and_assoc]

/-- C9, code bug: `_handle_alert` compares the re-alert window against
`timedelta.seconds` — the day-truncated seconds component — instead of
`total_seconds()`.  With the last alert at time 0 and a non-empty snapshot
at time 86410 (one day plus 10 seconds later, far outside the 300-second
window), the alert is suppressed and `last_alerts` is left unchanged,
although 86410 seconds of real elapsed time have passed. -/
theorem C9_code_bug :
    (observe_queue stAlerted 86410 "orders-dlq" 7).1 = false ∧
    (observe_queue stAlerted 86410 "orders-dlq" 7).2.lastAlerts "orders-dlq" = some 0 ∧
    86410 - 0 > 300 := by
  refine ⟨rfl, rfl, by norm_num⟩

/-- C10: for an `investigation_id` absent from the store,
`update_investigation` and `add_timeline_event` return normally and leave
the store bit-for-bit unchanged; and a keyword that is not an attribute of
the `Investigation` entity is silently ignored by the `hasattr` guard. -/
theorem C10 (s : Store) (now : Nat) (id : String) (kwargs : List (String × PyVal))
    (ty ti : String) (d ic ag : Option String) (i : Investigation) (k : String)
    (v : PyVal) (h1 : findInv s id = none) (h2 : hasAttr k = false) :
    update_investigation s now id kwargs = s ∧
    add_timeline_event s now id ty ti d ic ag = s ∧
    setAttr i k v = i := by
  refine ⟨?_, ?_, ?_⟩
  · unfold update_investigation
    rw [h1]
  · unfold add_timeline_event
    rw [h1]
  · unfold hasAttr at h2
    simp only [Bool.or_eq_false_iff, beq_eq_false_iff_ne] at h2
    simp [setAttr, h2]

/-- C10, witness at a concrete input: a missing id and a keyword that is
not a column. -/
theorem C10_witness :
    update_investigation Store.empty 7 "missing" [("status", PyVal.str "completed")] =
        Store.empty ∧
    add_timeline_event Store.empty 7 "missing" "launched" "t" none none none =
        Store.empty ∧
    setAttr (fixtureInv "i9" "q" "initiated" none) "not_a_column" (PyVal.nat 1) =
        fixtureInv "i9" "q" "initiated" none :=
  C10 Store.empty 7 "missing" [("status", PyVal.str "completed")] "launched" "t"
    none none none (fixtureInv "i9" "q" "initiated" none) "not_a_column"
    (PyVal.nat 1) rfl rfl

end DlqMonitor
